import Mathlib

/-!
Verification development for the NASA-IMPACT create-aws-process-session
repository (single source file: creds-installer.py).

The file shallowly embeds the two logical pieces of the program:

* the generated credential fetcher (the script text held in
  script_template, lines 34-83 of creds-installer.py): a read-through
  cache with time-based expiration, and
* the installer itself (create_temp_creds_script and
  update_aws_credentials_config): environment checks, script templating,
  chmod, and an INI-style profile upsert.

Python library functions used by the source are modelled as follows:

* datetime.fromisoformat / datetime.isoformat are modelled on the
  fixed-width subset YYYY-MM-DDTHH:MM:SS with an optional +HH:MM or
  -HH:MM offset (the formats that the program itself reads and writes);
  field ranges are validated as CPython does, so an out-of-range month,
  day, hour, minute, second or offset fails to parse (ValueError).
* datetime.replace with tzinfo set to UTC keeps the wall-clock fields
  and only swaps the offset: it reinterprets, it does not convert.
  Instants of aware datetimes are wall-clock seconds minus the offset.
* json.load on the cache file is modelled at the record level: a cache
  file is absent, unparseable, or a record (a finite map from string
  field names to string values, as in a credential payload).
* str.replace is modelled by an executable scan that replaces every
  non-overlapping occurrence left to right without rescanning the
  replacement text, exactly as the Python method does.
* requests.get either raises a RequestException (netError) or produces
  a response with a status code and a JSON body;
  Response.raise_for_status raises exactly when 400 <= status < 600.

Machine times are plain Int seconds; no floating point is involved.
-/

namespace CredsProc

/-- A JSON object with string values: association list from field names
to values, as produced by response.json() for a credential payload. -/
abbrev Record : Type := List (String × String)

/-- Python dict read access with a default of None: first binding wins. -/
def getField : Record → String → Option String
  | [], _ => none
  | (k, v) :: r, key => if k = key then some v else getField r key

/-- Python dict assignment: replace the first binding in place, or append
a new binding at the end, as dict item assignment does. -/
def setField : Record → String → String → Record
  | [], key, val => [(key, val)]
  | (k, v) :: r, key, val =>
    if k = key then (key, val) :: r else (k, v) :: setField r key val

/-! ## The datetime model -/

/-- A Python datetime value: calendar and clock fields plus an optional
fixed UTC offset in minutes (none models a naive datetime). -/
structure PyDateTime where
  year : Nat
  month : Nat
  day : Nat
  hour : Nat
  minute : Nat
  second : Nat
  tzOffsetMinutes : Option Int
deriving DecidableEq, Repr

/-- Gregorian leap-year rule. -/
def isLeap (y : Nat) : Bool :=
  (y % 4 == 0 && y % 100 != 0) || y % 400 == 0

/-- Number of days in a month, as the datetime constructor validates. -/
def daysInMonth (y m : Nat) : Nat :=
  if m = 2 then (if isLeap y then 29 else 28)
  else if m = 4 ∨ m = 6 ∨ m = 9 ∨ m = 11 then 30
  else 31

/-- Field ranges accepted by the datetime constructor. -/
def validDate (y m d : Nat) : Bool :=
  1 ≤ y && y ≤ 9999 && 1 ≤ m && m ≤ 12 && 1 ≤ d && d ≤ daysInMonth y m

/-- Clock field ranges accepted by the datetime constructor. -/
def validTime (h mi s : Nat) : Bool :=
  h ≤ 23 && mi ≤ 59 && s ≤ 59

/-- A fixed offset must be strictly less than 24 hours in magnitude. -/
def validOffset : Option Int → Bool
  | none => true
  | some off => decide (-1440 < off) && decide (off < 1440)

/-- All constructor-enforced invariants of a datetime value. -/
def validDT (dt : PyDateTime) : Bool :=
  validDate dt.year dt.month dt.day
    && validTime dt.hour dt.minute dt.second
    && validOffset dt.tzOffsetMinutes

/-- Days since 1970-01-01 of a civil date (Gregorian, year 1 onward). -/
def daysFromCivil (y m d : Nat) : Int :=
  let yAdj : Nat := if m ≤ 2 then y - 1 else y
  let era : Nat := yAdj / 400
  let yoe : Nat := yAdj % 400
  let mp : Nat := (m + 9) % 12
  let doy : Nat := (153 * mp + 2) / 5 + d - 1
  let doe : Nat := yoe * 365 + yoe / 4 - yoe / 100 + doy
  (era * 146097 + doe : Int) - 719468

/-- Wall-clock seconds of the datetime fields, ignoring any offset. -/
def wallSeconds (dt : PyDateTime) : Int :=
  daysFromCivil dt.year dt.month dt.day * 86400
    + 3600 * dt.hour + 60 * dt.minute + dt.second

/-- The instant an aware datetime denotes (epoch seconds); a naive
datetime denotes no instant, as in Python. -/
def instant (dt : PyDateTime) : Option Int :=
  dt.tzOffsetMinutes.map (fun off => wallSeconds dt - 60 * off)

/-- Model of datetime.replace with tzinfo set to timezone.utc: keep the
wall-clock fields, force the offset to zero. -/
def utcForce (dt : PyDateTime) : PyDateTime :=
  { dt with tzOffsetMinutes := some 0 }

/-! ## ISO-8601 parsing and printing (the subset the program exercises) -/

/-- Numeric value of a decimal digit character. -/
def digitVal (c : Char) : Nat := c.toNat - 48

/-- Whether a character is a decimal digit. -/
def isDigitCh (c : Char) : Bool := 48 ≤ c.toNat && c.toNat ≤ 57

/-- Parse the optional offset tail: empty, or +HH:MM, or -HH:MM.
Returns none when the tail is malformed (ValueError in Python). -/
def parseOffsetTail : List Char → Option (Option Int)
  | [] => some none
  | sign :: o1 :: o2 :: c :: o3 :: o4 :: [] =>
    if (sign = '+' ∨ sign = '-') ∧ c = ':'
        ∧ isDigitCh o1 ∧ isDigitCh o2 ∧ isDigitCh o3 ∧ isDigitCh o4 then
      let oh : Nat := 10 * digitVal o1 + digitVal o2
      let om : Nat := 10 * digitVal o3 + digitVal o4
      if oh ≤ 23 ∧ om ≤ 59 then
        if sign = '+' then some (some ((oh * 60 + om : Nat) : Int))
        else some (some (-((oh * 60 + om : Nat) : Int)))
      else none
    else none
  | _ => none

/-- Model of datetime.fromisoformat on the fixed-width subset
YYYY-MM-DDTHH:MM:SS with optional +HH:MM or -HH:MM offset. -/
def parseIsoL (cs : List Char) : Option PyDateTime :=
  match cs with
  | y1 :: y2 :: y3 :: y4 :: s1 :: mo1 :: mo2 :: s2 :: d1 :: d2 :: sT ::
      h1 :: h2 :: c1 :: mi1 :: mi2 :: c2 :: se1 :: se2 :: rest =>
    if s1 = '-' ∧ s2 = '-' ∧ sT = 'T' ∧ c1 = ':' ∧ c2 = ':'
        ∧ isDigitCh y1 ∧ isDigitCh y2 ∧ isDigitCh y3 ∧ isDigitCh y4
        ∧ isDigitCh mo1 ∧ isDigitCh mo2 ∧ isDigitCh d1 ∧ isDigitCh d2
        ∧ isDigitCh h1 ∧ isDigitCh h2 ∧ isDigitCh mi1 ∧ isDigitCh mi2
        ∧ isDigitCh se1 ∧ isDigitCh se2 then
      match parseOffsetTail rest with
      | none => none
      | some off =>
        let dt : PyDateTime :=
          { year := 1000 * digitVal y1 + 100 * digitVal y2
              + 10 * digitVal y3 + digitVal y4
            month := 10 * digitVal mo1 + digitVal mo2
            day := 10 * digitVal d1 + digitVal d2
            hour := 10 * digitVal h1 + digitVal h2
            minute := 10 * digitVal mi1 + digitVal mi2
            second := 10 * digitVal se1 + digitVal se2
            tzOffsetMinutes := off }
        if validDT dt then some dt else none
    else none
  | _ => none

/-- String-level wrapper for the fromisoformat model. -/
def parseIso (s : String) : Option PyDateTime := parseIsoL s.toList

/-- Two decimal digits, zero padded. -/
def pad2 (n : Nat) : List Char :=
  [Nat.digitChar (n / 10 % 10), Nat.digitChar (n % 10)]

/-- Four decimal digits, zero padded. -/
def pad4 (n : Nat) : List Char :=
  [Nat.digitChar (n / 1000 % 10), Nat.digitChar (n / 100 % 10),
   Nat.digitChar (n / 10 % 10), Nat.digitChar (n % 10)]

/-- Offset rendering of datetime.isoformat: sign, hours, colon, minutes. -/
def offsetChars (off : Int) : List Char :=
  if 0 ≤ off then
    '+' :: (pad2 (off.toNat / 60) ++ ':' :: pad2 (off.toNat % 60))
  else
    '-' :: (pad2 ((-off).toNat / 60) ++ ':' :: pad2 ((-off).toNat % 60))

/-- Model of datetime.isoformat (microseconds are zero, so omitted). -/
def isoformatL (dt : PyDateTime) : List Char :=
  pad4 dt.year ++ '-' :: pad2 dt.month ++ '-' :: pad2 dt.day
    ++ 'T' :: pad2 dt.hour ++ ':' :: pad2 dt.minute ++ ':' :: pad2 dt.second
    ++ (match dt.tzOffsetMinutes with
        | none => []
        | some off => offsetChars off)

/-- String-level wrapper for the isoformat model. -/
def isoformatS (dt : PyDateTime) : String :=
  String.mk (isoformatL dt)

/-! ## json.dumps on a string-valued object -/

/-- Escape a string as json.dumps does for the characters appearing in
credential payloads (backslash and double quote). -/
def jsonEscape (s : String) : String :=
  String.mk (s.toList.foldr
    (fun c acc =>
      if c = '\\' then '\\' :: '\\' :: acc
      else if c = '\"' then '\\' :: '\"' :: acc
      else c :: acc) [])

/-- Model of json.dumps on a string-valued object, with the default
separators of the json module. -/
def dumps (r : Record) : String :=
  "\x7b" ++ String.intercalate ", "
      (r.map (fun kv => "\"" ++ jsonEscape kv.1 ++ "\": \"" ++ jsonEscape kv.2 ++ "\""))
    ++ "\x7d"

/-- The single error line the fetcher prints on a request failure:
json.dumps of the object mapping error to the fixed message. -/
def errorLine : String := dumps [("error", "Failed to fetch credentials")]

/-! ## The generated fetcher -/

/-- Content of the cache file: absent, present but not valid JSON, or a
JSON object (the interesting shape for every claim). -/
inductive CacheContent where
  | absent
  | invalidJson
  | record (r : Record)
deriving DecidableEq

/-- EXPIRATION_THRESHOLD = timedelta(minutes=5), in seconds. -/
def EXPIRATION_THRESHOLD : Int := 300

/-- Result of get_cached_credentials: a returned value or an uncaught
Python exception (named by its type). -/
inductive CredLookup where
  | ok (r : Option Record)
  | raises (exn : String)
deriving DecidableEq

/-- Model of get_cached_credentials in the generated script.  The cache
file is read if present; its Expiration field is parsed and reinterpreted
as UTC; the cached record is returned iff now is strictly before the
expiration instant minus the five-minute threshold.  A missing file yields
None; unparseable JSON, a missing Expiration key (fromisoformat applied
to None) and a malformed Expiration string raise. -/
def get_cached_credentials (now : Int) (cache : CacheContent) : CredLookup :=
  match cache with
  | .absent => .ok none
  | .invalidJson => .raises "json.JSONDecodeError"
  | .record data =>
    match getField data "Expiration" with
    | none => .raises "TypeError"
    | some s =>
      match parseIso s with
      | none => .raises "ValueError"
      | some dt =>
        if now < wallSeconds (utcForce dt) - EXPIRATION_THRESHOLD then
          .ok (some data)
        else
          .ok none

/-- The one HTTP request the fetcher can issue: requests.get(API_URL,
headers set to the api-key header, timeout=5). -/
structure HttpRequest where
  url : String
  headers : List (String × String)
  timeoutSecs : Nat
deriving DecidableEq

/-- The request issued by fetch_new_credentials. -/
def theRequest (apiUrl apiKey : String) : HttpRequest :=
  { url := apiUrl, headers := [("api-key", apiKey)], timeoutSecs := 5 }

/-- Behaviour of the network on the one requests.get call: either a
RequestException, or a response with a status code and a JSON body. -/
inductive HttpResult where
  | netError
  | response (status : Nat) (body : Record)

/-- How fetch_new_credentials ends. -/
inductive FetchOutcome where
  | returns (r : Record)
  | exits1
  | raises (exn : String)
deriving DecidableEq

/-- Everything fetch_new_credentials does. -/
structure FetchResult where
  request : HttpRequest
  cacheWrite : Option Record
  stdoutLines : List String
  outcome : FetchOutcome
deriving DecidableEq

/-- Model of fetch_new_credentials in the generated script.  The request
is always issued; a RequestException and a raise_for_status error
(status in the 4xx/5xx band) are caught and turn into the error line plus
exit(1); on any other status the body is taken, its Expiration field is
read with dict indexing (KeyError when absent), parsed (ValueError when
malformed), reinterpreted as UTC and rendered back with isoformat; the
updated record is written to the cache and returned.  KeyError and
ValueError are not RequestException and escape the try block. -/
def fetch_new_credentials (apiUrl apiKey : String) (http : HttpResult) :
    FetchResult :=
  let req := theRequest apiUrl apiKey
  match http with
  | .netError =>
    { request := req, cacheWrite := none, stdoutLines := [errorLine],
      outcome := .exits1 }
  | .response status body =>
    if 400 ≤ status ∧ status < 600 then
      { request := req, cacheWrite := none, stdoutLines := [errorLine],
        outcome := .exits1 }
    else
      match getField body "Expiration" with
      | none =>
        { request := req, cacheWrite := none, stdoutLines := [],
          outcome := .raises "KeyError" }
      | some s =>
        match parseIso s with
        | none =>
          { request := req, cacheWrite := none, stdoutLines := [],
            outcome := .raises "ValueError" }
        | some dt =>
          let creds := setField body "Expiration" (isoformatS (utcForce dt))
          { request := req, cacheWrite := some creds, stdoutLines := [],
            outcome := .returns creds }

/-- How an invocation of the generated script terminates. -/
inductive Outcome where
  | exited (code : Nat)
  | uncaught (exn : String)
deriving DecidableEq

/-- Observable behaviour of one invocation of the generated script. -/
structure RunResult where
  requests : List HttpRequest
  cacheAfter : CacheContent
  stdout : List String
  outcome : Outcome
deriving DecidableEq

/-- Model of the main block of the generated script:
credentials = get_cached_credentials() or fetch_new_credentials(), then
print(json.dumps(credentials)).  A cached record is a nonempty dict,
hence truthy, so the or-chain is exactly the None test; exit(1) inside
fetch_new_credentials skips the final print. -/
def runFetcher (now : Int) (cache : CacheContent) (http : HttpResult)
    (apiUrl apiKey : String) : RunResult :=
  match get_cached_credentials now cache with
  | .raises e =>
    { requests := [], cacheAfter := cache, stdout := [], outcome := .uncaught e }
  | .ok (some creds) =>
    { requests := [], cacheAfter := cache, stdout := [dumps creds],
      outcome := .exited 0 }
  | .ok none =>
    let f := fetch_new_credentials apiUrl apiKey http
    match f.outcome with
    | .returns creds =>
      { requests := [f.request], cacheAfter := .record creds,
        stdout := f.stdoutLines ++ [dumps creds], outcome := .exited 0 }
    | .exits1 =>
      { requests := [f.request], cacheAfter := cache,
        stdout := f.stdoutLines, outcome := .exited 1 }
    | .raises e =>
      { requests := [f.request],
        cacheAfter := match f.cacheWrite with
          | some r => .record r
          | none => cache,
        stdout := f.stdoutLines, outcome := .uncaught e }

/-- The condition under which an invocation reaches fetch_new_credentials:
the cache file is absent, or it holds a record whose Expiration parses
and whose instant minus the five-minute threshold is not after now. -/
def cacheMiss (now : Int) (cache : CacheContent) : Prop :=
  cache = .absent ∨
    ∃ r s dt, cache = .record r ∧ getField r "Expiration" = some s ∧
      parseIso s = some dt ∧
      wallSeconds (utcForce dt) - EXPIRATION_THRESHOLD ≤ now

end CredsProc

namespace CredsInstaller

open CredsProc

/-! ## Model of str.replace -/

/-- Whether the first list is an initial segment of the second. -/
def isPre : List Char → List Char → Bool
  | [], _ => true
  | _ :: _, [] => false
  | p :: ps, c :: cs => p = c && isPre ps cs

/-- Fuelled scan behind the str.replace model: at each position, if the
(nonempty) pattern starts here, emit the replacement and skip past the
match without rescanning the emitted text; otherwise copy one character.
One unit of fuel is spent per step, and every step consumes at least one
character, so fuel equal to the length of the string is enough. -/
def replaceF (pat rep : List Char) : Nat → List Char → List Char
  | 0, s => s
  | _ + 1, [] => []
  | fuel + 1, c :: s =>
    if pat ≠ [] ∧ isPre pat (c :: s) then
      rep ++ replaceF pat rep fuel (List.drop (pat.length - 1) s)
    else
      c :: replaceF pat rep fuel s

/-- Model of the Python method str.replace for a nonempty pattern:
replace every non-overlapping occurrence, left to right. -/
def pyReplace (s pat rep : List Char) : List Char :=
  replaceF pat rep s.length s

/-! ## The script template (lines 34-83 of creds-installer.py) -/

/-- The script_template literal of create_temp_creds_script, verbatim. -/
def script_template : String :=
  "#!/usr/bin/env python3\n"
  ++ "\n"
  ++ "import os\n"
  ++ "import json\n"
  ++ "import requests\n"
  ++ "from datetime import datetime, timezone, timedelta\n"
  ++ "\n"
  ++ "CACHE_FILE = os.path.expanduser(\"~/.aws/credentials_cache_python.json\")\n"
  ++ "API_URL = \"API_URL_PLACEHOLDER\"\n"
  ++ "API_KEY = \"API_KEY_PLACEHOLDER\"\n"
  ++ "EXPIRATION_THRESHOLD = timedelta(minutes=5)  # Refresh if expiring within 5 min\n"
  ++ "\n"
  ++ "def get_cached_credentials():\n"
  ++ "    \"\"\"Reads cached credentials if they exist and are valid.\"\"\"\n"
  ++ "    if not os.path.exists(CACHE_FILE):\n"
  ++ "        return None\n"
  ++ "\n"
  ++ "    with open(CACHE_FILE, \"r\") as f:\n"
  ++ "        data = json.load(f)\n"
  ++ "\n"
  ++ "    expiration_time = datetime.fromisoformat(data.get(\"Expiration\")).replace(tzinfo=timezone.utc)\n"
  ++ "    current_time = datetime.now(timezone.utc)  # Ensure UTC comparison\n"
  ++ "\n"
  ++ "    if current_time < (expiration_time - EXPIRATION_THRESHOLD):\n"
  ++ "        return data  # Return valid cached credentials\n"
  ++ "\n"
  ++ "    return None  # Expired credentials\n"
  ++ "\n"
  ++ "def fetch_new_credentials():\n"
  ++ "    \"\"\"Fetches new credentials from the API and saves them to cache.\"\"\"\n"
  ++ "    try:\n"
  ++ "        response = requests.get(API_URL, headers=\x7b\"api-key\": API_KEY\x7d, timeout=5)\n"
  ++ "        response.raise_for_status()\n"
  ++ "        credentials = response.json()\n"
  ++ "\n"
  ++ "        # Ensure Expiration is stored as a proper UTC timestamp\n"
  ++ "        credentials[\"Expiration\"] = datetime.fromisoformat(credentials[\"Expiration\"]).replace(tzinfo=timezone.utc).isoformat()\n"
  ++ "\n"
  ++ "        with open(CACHE_FILE, \"w\") as f:\n"
  ++ "            json.dump(credentials, f)\n"
  ++ "\n"
  ++ "        return credentials\n"
  ++ "    except requests.RequestException as e:\n"
  ++ "        print(json.dumps(\x7b\"error\": \"Failed to fetch credentials\"\x7d))\n"
  ++ "        exit(1)\n"
  ++ "\n"
  ++ "if __name__ == \"__main__\":\n"
  ++ "    credentials = get_cached_credentials() or fetch_new_credentials()\n"
  ++ "    print(json.dumps(credentials))  # AWS CLI reads this output\n"

/-- The URL placeholder token of the template. -/
def urlPh : String := "API_URL_PLACEHOLDER"

/-- The key placeholder token of the template. -/
def keyPh : String := "API_KEY_PLACEHOLDER"

/-- The template text before the URL placeholder. -/
def tplA0 : String :=
  "#!/usr/bin/env python3\n"
  ++ "\n"
  ++ "import os\n"
  ++ "import json\n"
  ++ "import requests\n"
  ++ "from datetime import datetime, timezone, timedelta\n"
  ++ "\n"
  ++ "CACHE_FILE = os.path.expanduser(\"~/.aws/credentials_cache_python.json\")\n"
  ++ "API_URL = \""

/-- The template text between the two placeholders. -/
def tplMid : String := "\"\nAPI_KEY = \""

/-- The template text after the key placeholder. -/
def tplSfx : String :=
  "\"\n"
  ++ "EXPIRATION_THRESHOLD = timedelta(minutes=5)  # Refresh if expiring within 5 min\n"
  ++ "\n"
  ++ "def get_cached_credentials():\n"
  ++ "    \"\"\"Reads cached credentials if they exist and are valid.\"\"\"\n"
  ++ "    if not os.path.exists(CACHE_FILE):\n"
  ++ "        return None\n"
  ++ "\n"
  ++ "    with open(CACHE_FILE, \"r\") as f:\n"
  ++ "        data = json.load(f)\n"
  ++ "\n"
  ++ "    expiration_time = datetime.fromisoformat(data.get(\"Expiration\")).replace(tzinfo=timezone.utc)\n"
  ++ "    current_time = datetime.now(timezone.utc)  # Ensure UTC comparison\n"
  ++ "\n"
  ++ "    if current_time < (expiration_time - EXPIRATION_THRESHOLD):\n"
  ++ "        return data  # Return valid cached credentials\n"
  ++ "\n"
  ++ "    return None  # Expired credentials\n"
  ++ "\n"
  ++ "def fetch_new_credentials():\n"
  ++ "    \"\"\"Fetches new credentials from the API and saves them to cache.\"\"\"\n"
  ++ "    try:\n"
  ++ "        response = requests.get(API_URL, headers=\x7b\"api-key\": API_KEY\x7d, timeout=5)\n"
  ++ "        response.raise_for_status()\n"
  ++ "        credentials = response.json()\n"
  ++ "\n"
  ++ "        # Ensure Expiration is stored as a proper UTC timestamp\n"
  ++ "        credentials[\"Expiration\"] = datetime.fromisoformat(credentials[\"Expiration\"]).replace(tzinfo=timezone.utc).isoformat()\n"
  ++ "\n"
  ++ "        with open(CACHE_FILE, \"w\") as f:\n"
  ++ "            json.dump(credentials, f)\n"
  ++ "\n"
  ++ "        return credentials\n"
  ++ "    except requests.RequestException as e:\n"
  ++ "        print(json.dumps(\x7b\"error\": \"Failed to fetch credentials\"\x7d))\n"
  ++ "        exit(1)\n"
  ++ "\n"
  ++ "if __name__ == \"__main__\":\n"
  ++ "    credentials = get_cached_credentials() or fetch_new_credentials()\n"
  ++ "    print(json.dumps(credentials))  # AWS CLI reads this output\n"

/-- Model of the two str.replace calls of line 86: first the URL
placeholder, then, on the result, the key placeholder. -/
def scriptContent (apiUrl apiKey : String) : List Char :=
  pyReplace (pyReplace script_template.toList urlPh.toList apiUrl.toList)
    keyPh.toList apiKey.toList

/-! ## Model of the configparser upsert -/

/-- An INI configuration: sections in order, each holding options in
order.  configparser refuses duplicate sections and duplicate options
while reading, so files read back have unique names. -/
abbrev Config : Type := List (String × List (String × String))

/-- The one profile name the installer manages. -/
def profileName : String := "temp-creds-session"

/-- Whether a section of the given name exists (the in-test on line 109). -/
def hasSection (cfg : Config) (name : String) : Bool :=
  cfg.any (fun sec => sec.1 = name)

/-- config.set: in the first section of the given name, replace the
option in place or append it at the end. -/
def setInSection : Config → String → String → String → Config
  | [], _, _, _ => []
  | (n, opts) :: rest, name, key, v =>
    if n = name then (n, setField opts key v) :: rest
    else (n, opts) :: setInSection rest name key v

/-- Model of update_aws_credentials_config (lines 98-116): add the
profile section when absent, then set credential_process to the script
path, and write the file back. -/
def update_aws_credentials_config (cfg : Config) (scriptPath : String) :
    Config :=
  let cfg1 := if hasSection cfg profileName then cfg
              else cfg ++ [(profileName, [])]
  setInSection cfg1 profileName "credential_process" scriptPath

/-! ## Model of the installer -/

/-- stat.S_IEXEC: the owner-execute permission bit. -/
def S_IEXEC : Nat := 64

/-- Python truthiness of an optional environment string: os.getenv gives
None when unset, and line 16 treats None and the empty string alike. -/
def truthy : Option String → Bool
  | none => false
  | some s => !(s == "")

/-- The absolute path of the generated script for a given home. -/
def scriptPathOf (home : String) : String :=
  home ++ "/.aws/get_temp_creds.py"

/-- The absolute path of the credentials file for a given home. -/
def credentialsFileOf (home : String) : String :=
  home ++ "/.aws/credentials"

/-- The remediation message printed when an environment variable is
missing (lines 17-20). -/
def envErrorLines : List String :=
  ["ERROR: Required environment variables not set!",
   "Please set the following environment variables:",
   "  export AWS_GET_TEMP_CREDS_API_URL=\x27your-api-url\x27",
   "  export AWS_GET_TEMP_CREDS_API_KEY=\x27your-api-key\x27"]

/-- The banner main prints before anything else (lines 122-123). -/
def bannerLines : List String :=
  ["AWS Temporary Credentials Setup",
   "==================================="]

/-- A filesystem effect of the installer, in program order. -/
inductive FileOp where
  | mkdirAws
  | writeScript (content : List Char)
  | chmodScript (newMode : Nat)
  | writeCredentials (cfg : Config)
deriving DecidableEq

/-- Observable behaviour of one installer run. -/
structure InstallerResult where
  fileOps : List FileOp
  printed : List String
  exitCode : Nat
  script : Option (List Char × Nat)
  config : Config
deriving DecidableEq

/-- Model of main: banner, then create_temp_creds_script (environment
check, mkdir, write, chmod), then update_aws_credentials_config, then
the closing prints.  When an environment variable is missing the process
exits with code 1 before any filesystem effect (sys.exit escapes the
except-Exception handler).  modeAfterWrite is the file mode the fresh
script has when line 93 stats it. -/
def runInstaller (home : String) (apiUrlEnv apiKeyEnv : Option String)
    (modeAfterWrite : Nat) (config0 : Config) : InstallerResult :=
  if truthy apiUrlEnv ∧ truthy apiKeyEnv then
    let u := apiUrlEnv.getD ""
    let k := apiKeyEnv.getD ""
    let content := scriptContent u k
    let newMode := modeAfterWrite ||| S_IEXEC
    let cfg1 := update_aws_credentials_config config0 (scriptPathOf home)
    { fileOps := [.mkdirAws, .writeScript content, .chmodScript newMode,
        .writeCredentials cfg1],
      printed := bannerLines
        ++ ["✓ Created executable script: " ++ scriptPathOf home,
            "✓ Updated AWS credentials file: " ++ credentialsFileOf home,
            "✓ Added [temp-creds-session] profile with credential_process",
            "\n🎉 Setup completed successfully!",
            "\nYou can now use AWS CLI with:",
            "  aws --profile temp-creds-session <command>",
            "\nOr set as default profile:",
            "  export AWS_PROFILE=temp-creds-session"],
      exitCode := 0,
      script := some (content, newMode),
      config := cfg1 }
  else
    { fileOps := [], printed := bannerLines ++ envErrorLines, exitCode := 1,
      script := none, config := config0 }

/-! ## Scanning and counting helpers used by the verification -/

/-- Boolean equality scan over character lists. -/
def eqChars : List Char → List Char → Bool
  | [], [] => true
  | a :: as, b :: bs => a = b && eqChars as bs
  | _, _ => false

/-- Whether the pattern occurs anywhere in the list. -/
def containsPat (pat : List Char) : List Char → Bool
  | [] => isPre pat []
  | c :: s => isPre pat (c :: s) || containsPat pat s

/-- Whether the pattern occurs at one of the first k positions. -/
def occursBefore (pat : List Char) : List Char → Nat → Bool
  | _, 0 => false
  | [], _ + 1 => isPre pat []
  | c :: s, k + 1 => isPre pat (c :: s) || occursBefore pat s k

/-- Number of sections carrying the given name. -/
def countSections : Config → String → Nat
  | [], _ => 0
  | (n, _) :: rest, name =>
    (if n = name then 1 else 0) + countSections rest name

/-- The first section carrying the given name. -/
def findSection : Config → String → Option (List (String × String))
  | [], _ => none
  | (n, opts) :: rest, name =>
    if n = name then some opts else findSection rest name

/-- Number of options carrying the given key inside an option list. -/
def countKey : List (String × String) → String → Nat
  | [], _ => 0
  | (k, _) :: r, key => (if k = key then 1 else 0) + countKey r key

/-- The specification reading of the templating step: the fixed template
with exactly the URL value in the URL placeholder position and the key
value in the key placeholder position (simultaneous substitution).
Stated from the words of the spec, for comparison with scriptContent. -/
def specSubstitutedTemplate (u k : String) : List Char :=
  tplA0.toList ++ u.toList ++ tplMid.toList ++ k.toList ++ tplSfx.toList

end CredsInstaller

set_option maxRecDepth 80000

namespace CredsInstaller

/-! ## Scanning helpers and lemmas about the str.replace model

The concrete template is about 1750 characters long, so concrete facts
about it are established through Boolean scans (which evaluate in
constant stack space per character) and bridged to propositions. -/

theorem eqChars_iff : ∀ as bs : List Char, eqChars as bs = true ↔ as = bs := by
  intro as
  induction as with
  | nil => intro bs; cases bs <;> simp [eqChars]
  | cons a as ih =>
    intro bs
    cases bs with
    | nil => simp [eqChars]
    | cons b bs => simp [eqChars, ih]

theorem isPre_append_self (pat b : List Char) : isPre pat (pat ++ b) = true := by
  induction pat with
  | nil => simp [isPre]
  | cons p ps ih => simp [isPre, ih]

theorem replaceF_nil (pat rep : List Char) : ∀ fuel, replaceF pat rep fuel [] = [] := by
  intro fuel
  cases fuel <;> rfl

theorem replaceF_no_match (pat rep : List Char) :
    ∀ fuel s, containsPat pat s = false → replaceF pat rep fuel s = s := by
  intro fuel
  induction fuel with
  | zero => intro s _; rfl
  | succ fuel ih =>
    intro s h
    cases s with
    | nil => rfl
    | cons c s =>
      have h' : (isPre pat (c :: s) || containsPat pat s) = false := h
      simp only [Bool.or_eq_false_iff] at h'
      have hcond : ¬(pat ≠ [] ∧ isPre pat (c :: s) = true) := by
        intro hc
        rw [h'.1] at hc
        exact Bool.false_ne_true hc.2
      show replaceF pat rep (fuel + 1) (c :: s) = c :: s
      rw [replaceF, if_neg hcond, ih s h'.2]

theorem replaceF_fuel (pat rep : List Char) :
    ∀ fuel1 fuel2 s, s.length ≤ fuel1 → s.length ≤ fuel2 →
      replaceF pat rep fuel1 s = replaceF pat rep fuel2 s := by
  intro fuel1
  induction fuel1 with
  | zero =>
    intro fuel2 s h1 _
    have hs : s = [] := List.length_eq_zero.mp (Nat.le_zero.mp h1)
    subst hs
    rw [replaceF_nil, replaceF_nil]
  | succ fuel1 ih =>
    intro fuel2 s h1 h2
    cases s with
    | nil => rw [replaceF_nil, replaceF_nil]
    | cons c s =>
      cases fuel2 with
      | zero => simp [List.length_cons] at h2
      | succ fuel2 =>
        have hs1 : s.length ≤ fuel1 := by simp [List.length_cons] at h1; omega
        have hs2 : s.length ≤ fuel2 := by simp [List.length_cons] at h2; omega
        have hd : (List.drop (pat.length - 1) s).length ≤ s.length := by
          rw [List.length_drop]
          omega
        rw [replaceF, replaceF]
        by_cases hcond : pat ≠ [] ∧ isPre pat (c :: s) = true
        · rw [if_pos hcond, if_pos hcond,
            ih fuel2 (List.drop (pat.length - 1) s) (Nat.le_trans hd hs1) (Nat.le_trans hd hs2)]
        · rw [if_neg hcond, if_neg hcond, ih fuel2 s hs1 hs2]

theorem replaceF_split (pat rep : List Char) (hpat : pat ≠ []) :
    ∀ a b fuel, (a ++ pat ++ b).length ≤ fuel →
      occursBefore pat (a ++ pat ++ b) a.length = false →
      ∃ fuel2, b.length ≤ fuel2 ∧
        replaceF pat rep fuel (a ++ pat ++ b) = a ++ rep ++ replaceF pat rep fuel2 b := by
  intro a
  induction a with
  | nil =>
    intro b fuel hfuel _
    cases pat with
    | nil => exact absurd rfl hpat
    | cons p ps =>
      have hflen : ps.length + 1 + b.length ≤ fuel := by
        have : ([] ++ (p :: ps) ++ b).length = ps.length + 1 + b.length := by
          simp [List.length_append]; omega
        omega
      cases fuel with
      | zero => omega
      | succ fuel =>
        refine ⟨fuel - ps.length, by omega, ?_⟩
        have hstep : replaceF (p :: ps) rep (fuel + 1) (p :: (ps ++ b))
            = rep ++ replaceF (p :: ps) rep fuel (List.drop ((p :: ps).length - 1) (ps ++ b)) := by
          rw [replaceF, if_pos ⟨hpat, by simpa using isPre_append_self (p :: ps) b⟩]
        have hdrop : List.drop ((p :: ps).length - 1) (ps ++ b) = b := by
          show List.drop (ps.length + 1 - 1) (ps ++ b) = b
          rw [Nat.add_sub_cancel]
          exact List.drop_left ps b
        show replaceF (p :: ps) rep (fuel + 1) (p :: (ps ++ b))
            = rep ++ replaceF (p :: ps) rep (fuel - ps.length) b
        rw [hstep, hdrop, replaceF_fuel (p :: ps) rep fuel (fuel - ps.length) b
          (by omega) (by omega)]
  | cons c a ih =>
    intro b fuel hfuel hocc
    have hflen : (a ++ pat ++ b).length + 1 ≤ fuel := by
      have : ((c :: a) ++ pat ++ b).length = (a ++ pat ++ b).length + 1 := by
        simp [List.length_append, List.length_cons]
      omega
    cases fuel with
    | zero => omega
    | succ fuel =>
      have hocc' : (isPre pat (c :: (a ++ pat ++ b))
          || occursBefore pat (a ++ pat ++ b) a.length) = false := hocc
      simp only [Bool.or_eq_false_iff] at hocc'
      have hcond : ¬(pat ≠ [] ∧ isPre pat (c :: (a ++ pat ++ b)) = true) := by
        intro hc
        rw [hocc'.1] at hc
        exact Bool.false_ne_true hc.2
      obtain ⟨fuel2, hf2, he⟩ := ih b fuel (by omega) hocc'.2
      refine ⟨fuel2, hf2, ?_⟩
      show replaceF pat rep (fuel + 1) (c :: (a ++ pat ++ b))
          = c :: (a ++ rep ++ replaceF pat rep fuel2 b)
      rw [replaceF, if_neg hcond, he]

/-- The two replace calls on the split template: provided the URL value
does not create an occurrence of the key placeholder before the one in
the template, the result is the template with the two values in the
placeholder positions. -/
theorem scriptContent_eq (u k : String)
    (hsplit : script_template.toList
      = tplA0.toList ++ urlPh.toList ++ (tplMid.toList ++ keyPh.toList ++ tplSfx.toList))
    (hpre : occursBefore urlPh.toList script_template.toList tplA0.toList.length = false)
    (htail : containsPat urlPh.toList (tplMid.toList ++ keyPh.toList ++ tplSfx.toList) = false)
    (hkey : occursBefore keyPh.toList
      ((tplA0.toList ++ u.toList ++ tplMid.toList) ++ keyPh.toList ++ tplSfx.toList)
      (tplA0.toList ++ u.toList ++ tplMid.toList).length = false)
    (hktail : containsPat keyPh.toList tplSfx.toList = false) :
    scriptContent u k
      = tplA0.toList ++ u.toList ++ tplMid.toList ++ k.toList ++ tplSfx.toList := by
  have hu : urlPh.toList ≠ [] := by simp [urlPh]
  have hk : keyPh.toList ≠ [] := by simp [keyPh]
  unfold scriptContent pyReplace
  rw [hsplit] at hpre ⊢
  obtain ⟨f1, hf1, he1⟩ := replaceF_split urlPh.toList u.toList hu tplA0.toList
    (tplMid.toList ++ keyPh.toList ++ tplSfx.toList) _ (le_refl _) hpre
  rw [he1, replaceF_no_match urlPh.toList u.toList f1 _ htail]
  have hassoc : tplA0.toList ++ u.toList ++ (tplMid.toList ++ keyPh.toList ++ tplSfx.toList)
      = (tplA0.toList ++ u.toList ++ tplMid.toList) ++ keyPh.toList ++ tplSfx.toList := by
    simp [List.append_assoc]
  rw [hassoc]
  obtain ⟨f2, hf2, he2⟩ := replaceF_split keyPh.toList k.toList hk
    (tplA0.toList ++ u.toList ++ tplMid.toList) tplSfx.toList _ (le_refl _) hkey
  rw [he2, replaceF_no_match keyPh.toList k.toList f2 _ hktail]

end CredsInstaller

namespace CredsProc

/-! ## Lemmas about digits, parsing and printing -/

theorem digit_facts : ∀ k : Nat, k < 10 →
    isDigitCh (Nat.digitChar k) = true ∧ digitVal (Nat.digitChar k) = k := by decide

theorem isDigitCh_digitChar_mod (n : Nat) : isDigitCh (Nat.digitChar (n % 10)) = true :=
  (digit_facts _ (Nat.mod_lt _ (by norm_num))).1

theorem digitVal_digitChar_mod (n : Nat) : digitVal (Nat.digitChar (n % 10)) = n % 10 :=
  (digit_facts _ (Nat.mod_lt _ (by norm_num))).2

theorem daysInMonth_le (y m : Nat) : daysInMonth y m ≤ 31 := by
  unfold daysInMonth
  split
  · split <;> omega
  · split <;> omega

/-- A parse that succeeds yields a datetime within the constructor
ranges, as Python raises ValueError otherwise. -/
theorem parseIso_valid {s : String} {dt : PyDateTime} (h : parseIso s = some dt) :
    validDT dt = true := by
  unfold parseIso parseIsoL at h
  repeat' split at h
  all_goals simp_all
  all_goals (obtain ⟨h1, h2⟩ := h; subst h2; exact h1)

/-- Printing a UTC-forced valid datetime with isoformat and parsing it
back with fromisoformat returns the same datetime. -/
theorem parse_print_utc (dt : PyDateTime) (hv : validDT dt = true) :
    parseIso (isoformatS (utcForce dt)) = some (utcForce dt) := by
  obtain ⟨y, mo, d, h, mi, s, off⟩ := dt
  simp only [validDT, validDate, validTime, Bool.and_eq_true, decide_eq_true_eq] at hv
  have hb := daysInMonth_le y mo
  show parseIsoL (isoformatL (utcForce ⟨y, mo, d, h, mi, s, off⟩)) = some (utcForce ⟨y, mo, d, h, mi, s, off⟩)
  simp only [utcForce, isoformatL, pad4, pad2, offsetChars]
  norm_num
  simp only [parseIsoL, isDigitCh_digitChar_mod, digitVal_digitChar_mod]
  have hoff : parseOffsetTail ['+', Nat.digitChar 0, Nat.digitChar 0, ':',
      Nat.digitChar 0, Nat.digitChar 0] = some (some 0) := by decide
  have hrec : ({ year := 1000 * (y / 1000 % 10) + 100 * (y / 100 % 10) + 10 * (y / 10 % 10) + y % 10
                 month := 10 * (mo / 10 % 10) + mo % 10
                 day := 10 * (d / 10 % 10) + d % 10
                 hour := 10 * (h / 10 % 10) + h % 10
                 minute := 10 * (mi / 10 % 10) + mi % 10
                 second := 10 * (s / 10 % 10) + s % 10
                 tzOffsetMinutes := some 0 } : PyDateTime)
      = ⟨y, mo, d, h, mi, s, some 0⟩ := by
    simp only [PyDateTime.mk.injEq]
    refine ⟨by omega, by omega, by omega, by omega, by omega, by omega, trivial⟩
  have hvd : validDT ⟨y, mo, d, h, mi, s, some 0⟩ = true := by
    simp only [validDT, validDate, validTime, Bool.and_eq_true, decide_eq_true_eq]
    refine ⟨⟨?_, ?_, ?_⟩, ?_⟩
    · omega
    · omega
    · omega
    · decide
  simp only [hoff, hrec, hvd, if_true, and_self, if_pos]

/-- Forcing UTC does not change the wall-clock fields, hence not the
wall-clock seconds. -/
theorem wallSeconds_utcForce (dt : PyDateTime) :
    wallSeconds (utcForce dt) = wallSeconds dt := rfl

/-! ## Lemmas about record field access -/

theorem getField_setField_same (r : Record) (key v : String) :
    getField (setField r key v) key = some v := by
  induction r with
  | nil => simp [setField, getField]
  | cons kv r ih =>
    obtain ⟨k0, v0⟩ := kv
    by_cases h : k0 = key
    · simp [setField, getField, h]
    · simp [setField, getField, h, ih]

end CredsProc

namespace CredsInstaller

open CredsProc

/-! ## Lemmas about the configparser upsert -/

theorem hasSection_false_count {cfg : Config} {name : String}
    (h : hasSection cfg name = false) : countSections cfg name = 0 := by
  induction cfg with
  | nil => rfl
  | cons sec rest ih =>
    obtain ⟨n, opts⟩ := sec
    simp only [hasSection, List.any_cons, Bool.or_eq_false_iff] at h
    have hn : ¬(n = name) := by
      intro he
      rw [he] at h
      simp at h
    simp only [countSections, if_neg hn, Nat.zero_add]
    apply ih
    simp only [hasSection]
    exact h.2

theorem hasSection_true_count {cfg : Config} {name : String}
    (h : hasSection cfg name = true) : 1 ≤ countSections cfg name := by
  induction cfg with
  | nil => simp [hasSection] at h
  | cons sec rest ih =>
    obtain ⟨n, opts⟩ := sec
    by_cases hn : n = name
    · simp only [countSections, if_pos hn]
      omega
    · simp only [hasSection, List.any_cons, decide_eq_true_eq, Bool.or_eq_true] at h
      rcases h with h | h
      · exact absurd h hn
      · simp only [countSections, if_neg hn]
        have := ih (by simp only [hasSection]; exact h)
        omega

theorem hasSection_true_find {cfg : Config} {name : String}
    (h : hasSection cfg name = true) :
    ∃ opts, findSection cfg name = some opts := by
  induction cfg with
  | nil => simp [hasSection] at h
  | cons sec rest ih =>
    obtain ⟨n, opts⟩ := sec
    by_cases hn : n = name
    · exact ⟨opts, by simp [findSection, hn]⟩
    · simp only [hasSection, List.any_cons, decide_eq_true_eq] at h
      have : rest.any (fun sec => decide (sec.1 = name)) = true := by
        cases h' : rest.any (fun sec => decide (sec.1 = name))
        · simp [h', hn] at h
        · rfl
      obtain ⟨o, ho⟩ := ih this
      exact ⟨o, by simp [findSection, hn, ho]⟩

theorem countSections_setInSection (cfg : Config) (name key v m : String) :
    countSections (setInSection cfg name key v) m = countSections cfg m := by
  induction cfg with
  | nil => rfl
  | cons sec rest ih =>
    obtain ⟨n, opts⟩ := sec
    by_cases hn : n = name
    · simp [setInSection, hn, countSections]
    · simp [setInSection, hn, countSections, ih]

theorem countSections_append_new (cfg : Config) (name : String)
    (opts : List (String × String)) :
    countSections (cfg ++ [(name, opts)]) name = countSections cfg name + 1 := by
  induction cfg with
  | nil => simp [countSections]
  | cons sec rest ih =>
    obtain ⟨n, o⟩ := sec
    show (if n = name then 1 else 0) + countSections (rest ++ [(name, opts)]) name
        = (if n = name then 1 else 0) + countSections rest name + 1
    rw [ih]
    omega

theorem findSection_setInSection (cfg : Config) (name key v : String) :
    findSection (setInSection cfg name key v) name
      = (findSection cfg name).map (fun o => setField o key v) := by
  induction cfg with
  | nil => rfl
  | cons sec rest ih =>
    obtain ⟨n, opts⟩ := sec
    by_cases hn : n = name
    · simp [setInSection, hn, findSection]
    · simp [setInSection, hn, findSection, ih]

theorem findSection_append_new {cfg : Config} {name : String}
    (h : hasSection cfg name = false) (opts : List (String × String)) :
    findSection (cfg ++ [(name, opts)]) name = some opts := by
  induction cfg with
  | nil => simp [findSection]
  | cons sec rest ih =>
    obtain ⟨n, o⟩ := sec
    simp only [hasSection, List.any_cons, Bool.or_eq_false_iff] at h
    have hn : ¬(n = name) := by
      intro he
      rw [he] at h
      simp at h
    simp only [List.cons_append, findSection, if_neg hn]
    exact ih (by simp only [hasSection]; exact h.2)

theorem countKey_setField {opts : List (String × String)} {key v : String}
    (h : countKey opts key ≤ 1) : countKey (setField opts key v) key = 1 := by
  induction opts with
  | nil => simp [setField, countKey]
  | cons kv r ih =>
    obtain ⟨k0, v0⟩ := kv
    by_cases hk : k0 = key
    · simp only [countKey, if_pos hk] at h
      have : countKey r key = 0 := by omega
      simp [setField, hk, countKey, this]
    · simp only [countKey, if_neg hk] at h
      simp only [setField, if_neg hk, countKey, if_neg hk]
      rw [ih (by omega)]

/-- The upsert leaves exactly one section of the profile name. -/
theorem update_countSections {cfg : Config} (p : String)
    (h : countSections cfg profileName ≤ 1) :
    countSections (update_aws_credentials_config cfg p) profileName = 1 := by
  unfold update_aws_credentials_config
  by_cases hs : hasSection cfg profileName
  · rw [if_pos hs, countSections_setInSection]
    have := hasSection_true_count hs
    omega
  · rw [if_neg hs, countSections_setInSection, countSections_append_new,
      hasSection_false_count (Bool.of_not_eq_true hs)]

/-- The upsert leaves the profile section holding the credential_process
key exactly once, mapped to the given path. -/
theorem update_findSection {cfg : Config} (p : String)
    (hk : ∀ opts, findSection cfg profileName = some opts →
      countKey opts "credential_process" ≤ 1) :
    ∃ opts, findSection (update_aws_credentials_config cfg p) profileName = some opts
      ∧ countKey opts "credential_process" = 1
      ∧ getField opts "credential_process" = some p := by
  unfold update_aws_credentials_config
  by_cases hs : hasSection cfg profileName
  · rw [if_pos hs]
    obtain ⟨o, ho⟩ := hasSection_true_find hs
    refine ⟨setField o "credential_process" p, ?_, ?_, ?_⟩
    · rw [findSection_setInSection, ho]
      rfl
    · exact countKey_setField (hk o ho)
    · exact getField_setField_same o "credential_process" p
  · rw [if_neg hs]
    refine ⟨[("credential_process", p)], ?_, by simp [countKey], by simp [getField]⟩
    rw [findSection_setInSection,
      findSection_append_new (Bool.of_not_eq_true hs) []]
    rfl

end CredsInstaller


namespace CredsInstaller

open CredsProc

/-- The template splits at its two placeholder occurrences. -/
theorem script_template_split : script_template.toList
    = tplA0.toList ++ urlPh.toList
      ++ (tplMid.toList ++ keyPh.toList ++ tplSfx.toList) := by
  rw [← eqChars_iff]
  decide

/-- The URL placeholder does not occur before its own position. -/
theorem urlPh_not_early :
    occursBefore urlPh.toList script_template.toList tplA0.toList.length = false := by
  decide

/-- The URL placeholder does not occur after its own position. -/
theorem urlPh_not_in_tail :
    containsPat urlPh.toList (tplMid.toList ++ keyPh.toList ++ tplSfx.toList) = false := by
  decide

/-- The key placeholder does not occur in the template suffix. -/
theorem keyPh_not_in_sfx :
    containsPat keyPh.toList tplSfx.toList = false := by
  decide

end CredsInstaller

namespace CredsProc

/-! ## Behaviour lemmas for the generated fetcher -/

theorem get_cached_none {now : Int} {cache : CacheContent} (h : cacheMiss now cache) :
    get_cached_credentials now cache = .ok none := by
  rcases h with h | ⟨r, s, dt, hc, hs, hp, hle⟩
  · rw [h]
    rfl
  · subst hc
    simp only [get_cached_credentials, hs, hp]
    rw [if_neg (by omega)]

/-- A fresh cache is returned unchanged with no request. -/
theorem runFetcher_cached {now : Int} {r : Record} {s : String} {dt : PyDateTime}
    (http : HttpResult) (apiUrl apiKey : String)
    (hs : getField r "Expiration" = some s)
    (hp : parseIso s = some dt)
    (hfresh : now < wallSeconds (utcForce dt) - EXPIRATION_THRESHOLD) :
    runFetcher now (.record r) http apiUrl apiKey
      = { requests := []
          cacheAfter := .record r
          stdout := [dumps r]
          outcome := .exited 0 } := by
  simp only [runFetcher, get_cached_credentials, hs, hp]
  rw [if_pos hfresh]

/-- A cache miss followed by a usable response: one request, cache
overwritten with the normalized record, record printed, exit 0. -/
theorem runFetcher_fetch_success {now : Int} {cache : CacheContent} {status : Nat}
    {body : Record} {s : String} {dt : PyDateTime} (apiUrl apiKey : String)
    (hmiss : cacheMiss now cache)
    (hok : ¬(400 ≤ status ∧ status < 600))
    (hs : getField body "Expiration" = some s)
    (hp : parseIso s = some dt) :
    runFetcher now cache (.response status body) apiUrl apiKey
      = { requests := [theRequest apiUrl apiKey]
          cacheAfter := .record (setField body "Expiration" (isoformatS (utcForce dt)))
          stdout := [dumps (setField body "Expiration" (isoformatS (utcForce dt)))]
          outcome := .exited 0 } := by
  simp only [runFetcher, get_cached_none hmiss, fetch_new_credentials]
  rw [if_neg hok]
  simp only [hs, hp, List.nil_append]

/-- A cache miss followed by a request failure: one request, the single
error line, exit 1, cache untouched. -/
theorem runFetcher_fetch_failure {now : Int} {cache : CacheContent} {http : HttpResult}
    (apiUrl apiKey : String)
    (hmiss : cacheMiss now cache)
    (hfail : http = .netError
      ∨ ∃ status body, http = .response status body ∧ 400 ≤ status ∧ status < 600) :
    runFetcher now cache http apiUrl apiKey
      = { requests := [theRequest apiUrl apiKey]
          cacheAfter := cache
          stdout := [errorLine]
          outcome := .exited 1 } := by
  rcases hfail with h | ⟨status, body, h, hst⟩
  · subst h
    simp only [runFetcher, get_cached_none hmiss, fetch_new_credentials]
  · subst h
    simp only [runFetcher, get_cached_none hmiss, fetch_new_credentials]
    rw [if_pos hst]

/-- A cache miss followed by a usable status whose body lacks a parseable
Expiration: the uncaught exception escapes, nothing is printed, nothing
is written. -/
theorem runFetcher_fetch_badbody {now : Int} {cache : CacheContent} {status : Nat}
    {body : Record} (apiUrl apiKey : String)
    (hmiss : cacheMiss now cache)
    (hok : ¬(400 ≤ status ∧ status < 600))
    (hbad : getField body "Expiration" = none
      ∨ ∃ s, getField body "Expiration" = some s ∧ parseIso s = none) :
    ∃ e, runFetcher now cache (.response status body) apiUrl apiKey
      = { requests := [theRequest apiUrl apiKey]
          cacheAfter := cache
          stdout := []
          outcome := .uncaught e } := by
  rcases hbad with h | ⟨s, hs, hp⟩
  · refine ⟨"KeyError", ?_⟩
    simp only [runFetcher, get_cached_none hmiss, fetch_new_credentials]
    rw [if_neg hok]
    simp only [h]
  · refine ⟨"ValueError", ?_⟩
    simp only [runFetcher, get_cached_none hmiss, fetch_new_credentials]
    rw [if_neg hok]
    simp only [hs, hp]

/-- A present but unusable cache file: the uncaught exception escapes
before any request, nothing is printed, nothing is written. -/
theorem runFetcher_badcache {now : Int} {cache : CacheContent} (http : HttpResult)
    (apiUrl apiKey : String)
    (hbad : cache = .invalidJson
      ∨ ∃ r, cache = .record r ∧ (getField r "Expiration" = none
        ∨ ∃ s, getField r "Expiration" = some s ∧ parseIso s = none)) :
    ∃ e, runFetcher now cache http apiUrl apiKey
      = { requests := []
          cacheAfter := cache
          stdout := []
          outcome := .uncaught e } := by
  rcases hbad with h | ⟨r, hc, h | ⟨s, hs, hp⟩⟩
  · subst h
    exact ⟨"json.JSONDecodeError", rfl⟩
  · subst hc
    refine ⟨"TypeError", ?_⟩
    simp only [runFetcher, get_cached_credentials, h]
  · subst hc
    refine ⟨"ValueError", ?_⟩
    simp only [runFetcher, get_cached_credentials, hs, hp]

end CredsProc

namespace CredsProc

/-! ## Claims about the generated fetcher -/

/-- C1: for every cache file whose Expiration parses, if the current UTC
time is strictly less than Expiration minus five minutes, an invocation
of the generated fetcher performs no network call and writes the cached
credential record to standard output unmodified (the cache is untouched
and the process exits normally). -/
theorem claim_C1 (now : Int) (r : Record) (s : String) (dt : PyDateTime)
    (http : HttpResult) (apiUrl apiKey : String)
    (hs : getField r "Expiration" = some s)
    (hp : parseIso s = some dt)
    (hfresh : now < wallSeconds (utcForce dt) - EXPIRATION_THRESHOLD) :
    runFetcher now (.record r) http apiUrl apiKey
      = { requests := []
          cacheAfter := .record r
          stdout := [dumps r]
          outcome := .exited 0 } :=
  runFetcher_cached http apiUrl apiKey hs hp hfresh

theorem claim_C1_witness :
    runFetcher 0
      (.record [("AccessKeyId", "AKIA"), ("Expiration", "2030-01-01T00:00:00+00:00")])
      .netError "https://api.example.com/creds" "key123"
      = { requests := []
          cacheAfter := .record [("AccessKeyId", "AKIA"), ("Expiration", "2030-01-01T00:00:00+00:00")]
          stdout := [dumps [("AccessKeyId", "AKIA"), ("Expiration", "2030-01-01T00:00:00+00:00")]]
          outcome := .exited 0 } :=
  claim_C1 0 [("AccessKeyId", "AKIA"), ("Expiration", "2030-01-01T00:00:00+00:00")]
    "2030-01-01T00:00:00+00:00" ⟨2030, 1, 1, 0, 0, 0, some 0⟩
    .netError "https://api.example.com/creds" "key123" (by decide) (by decide) (by decide)

/-- C2: for every state in which the cache is absent or its parsed
Expiration satisfies now at or past Expiration minus five minutes, an
invocation issues exactly one HTTP GET to the configured URL with the
api-key header and a five second timeout and, on a usable response
(status outside the 4xx/5xx band, Expiration present and parseable),
overwrites the cache with the full returned record (its Expiration
normalized) and prints that same record. -/
theorem claim_C2 (now : Int) (cache : CacheContent) (status : Nat) (body : Record)
    (s : String) (dt : PyDateTime) (apiUrl apiKey : String)
    (hmiss : cacheMiss now cache)
    (hok : ¬(400 ≤ status ∧ status < 600))
    (hs : getField body "Expiration" = some s)
    (hp : parseIso s = some dt) :
    runFetcher now cache (.response status body) apiUrl apiKey
      = { requests := [{ url := apiUrl, headers := [("api-key", apiKey)], timeoutSecs := 5 }]
          cacheAfter := .record (setField body "Expiration" (isoformatS (utcForce dt)))
          stdout := [dumps (setField body "Expiration" (isoformatS (utcForce dt)))]
          outcome := .exited 0 } :=
  runFetcher_fetch_success apiUrl apiKey hmiss hok hs hp

theorem claim_C2_witness :
    runFetcher 0 .absent
      (.response 200 [("AccessKeyId", "A"), ("Expiration", "2030-01-01T00:00:00")])
      "https://api.example.com/creds" "key123"
      = { requests := [{ url := "https://api.example.com/creds",
                         headers := [("api-key", "key123")], timeoutSecs := 5 }]
          cacheAfter := .record (setField [("AccessKeyId", "A"), ("Expiration", "2030-01-01T00:00:00")]
            "Expiration" (isoformatS (utcForce ⟨2030, 1, 1, 0, 0, 0, none⟩)))
          stdout := [dumps (setField [("AccessKeyId", "A"), ("Expiration", "2030-01-01T00:00:00")]
            "Expiration" (isoformatS (utcForce ⟨2030, 1, 1, 0, 0, 0, none⟩)))]
          outcome := .exited 0 } :=
  claim_C2 0 .absent 200 [("AccessKeyId", "A"), ("Expiration", "2030-01-01T00:00:00")]
    "2030-01-01T00:00:00" ⟨2030, 1, 1, 0, 0, 0, none⟩
    "https://api.example.com/creds" "key123"
    (Or.inl rfl) (by decide) (by decide) (by decide)

/-- C3 as stated is false: a success response whose body lacks the
Expiration field makes the generated fetcher crash with an uncaught
KeyError, printing nothing at all on standard output, rather than
emitting a JSON error payload. -/
theorem claim_C3_counterexample :
    (runFetcher 0 .absent (.response 200 [("AccessKeyId", "A")]) "u" "k").stdout = []
      ∧ (runFetcher 0 .absent (.response 200 [("AccessKeyId", "A")]) "u" "k").outcome
        = .uncaught "KeyError" := by
  exact ⟨rfl, rfl⟩

/-- C3 amended: for every fetch whose response has a usable status but
whose body is missing the Expiration field or carries a malformed
Expiration value, the generated fetcher terminates with an uncaught
exception (KeyError or ValueError, hence a non-zero process exit) and
emits nothing on standard output; the cache is not written. -/
theorem claim_C3_amended (now : Int) (cache : CacheContent) (status : Nat) (body : Record)
    (apiUrl apiKey : String)
    (hmiss : cacheMiss now cache)
    (hok : ¬(400 ≤ status ∧ status < 600))
    (hbad : getField body "Expiration" = none
      ∨ ∃ s, getField body "Expiration" = some s ∧ parseIso s = none) :
    ∃ e, runFetcher now cache (.response status body) apiUrl apiKey
      = { requests := [theRequest apiUrl apiKey]
          cacheAfter := cache
          stdout := []
          outcome := .uncaught e } :=
  runFetcher_fetch_badbody apiUrl apiKey hmiss hok hbad

theorem claim_C3_amended_witness :
    ∃ e, runFetcher 0 .absent (.response 200 [("AccessKeyId", "B")]) "url1" "k1"
      = { requests := [theRequest "url1" "k1"]
          cacheAfter := .absent
          stdout := []
          outcome := .uncaught e } :=
  claim_C3_amended 0 .absent 200 [("AccessKeyId", "B")] "url1" "k1"
    (Or.inl rfl) (by decide) (Or.inl (by decide))

/-- C4 as stated is false: a non-2xx status outside the 4xx/5xx band
(here 304) passes raise_for_status, so the fetcher proceeds on the
response body and exits 0 without printing the error object. -/
theorem claim_C4_counterexample :
    (runFetcher 0 .absent
      (.response 304 [("Expiration", "2030-01-01T00:00:00"), ("AccessKeyId", "A")])
      "u" "k").outcome = .exited 0
    ∧ (runFetcher 0 .absent
      (.response 304 [("Expiration", "2030-01-01T00:00:00"), ("AccessKeyId", "A")])
      "u" "k").stdout ≠ [errorLine] := by
  refine ⟨rfl, by decide⟩

/-- C4 amended: for every fetch that fails with a network error or a
4xx/5xx HTTP status, the generated fetcher prints the single-line JSON
error object to standard output and exits with code 1; it issues exactly
one request (no retry) and leaves the cache as it was, returning no
stale credentials. -/
theorem claim_C4_amended (now : Int) (cache : CacheContent) (http : HttpResult)
    (apiUrl apiKey : String)
    (hmiss : cacheMiss now cache)
    (hfail : http = .netError
      ∨ ∃ status body, http = .response status body ∧ 400 ≤ status ∧ status < 600) :
    runFetcher now cache http apiUrl apiKey
      = { requests := [theRequest apiUrl apiKey]
          cacheAfter := cache
          stdout := [errorLine]
          outcome := .exited 1 }
    ∧ errorLine.toList.contains '\n' = false :=
  ⟨runFetcher_fetch_failure apiUrl apiKey hmiss hfail, by decide⟩

theorem claim_C4_amended_witness :
    (runFetcher 5 .absent .netError "url2" "k2"
      = { requests := [theRequest "url2" "k2"]
          cacheAfter := .absent
          stdout := [errorLine]
          outcome := .exited 1 }
    ∧ errorLine.toList.contains '\n' = false) :=
  claim_C4_amended 5 .absent .netError "url2" "k2" (Or.inl rfl) (Or.inl rfl)

end CredsProc

namespace CredsProc

/-- C5 as stated is false: for an API Expiration carrying a +05:00
offset, the persisted value keeps the wall-clock fields and replaces the
offset with UTC, so it denotes a different instant (five hours later)
than the Expiration the API returned. -/
theorem claim_C5_counterexample :
    (runFetcher 0 .absent
      (.response 200 [("AccessKeyId", "A"), ("Expiration", "2026-01-01T12:00:00+05:00")])
      "u" "k").cacheAfter
      = .record [("AccessKeyId", "A"), ("Expiration", "2026-01-01T12:00:00+00:00")]
    ∧ parseIso "2026-01-01T12:00:00+05:00" = some ⟨2026, 1, 1, 12, 0, 0, some 300⟩
    ∧ parseIso "2026-01-01T12:00:00+00:00" = some ⟨2026, 1, 1, 12, 0, 0, some 0⟩
    ∧ instant ⟨2026, 1, 1, 12, 0, 0, some 0⟩ ≠ instant ⟨2026, 1, 1, 12, 0, 0, some 300⟩ := by
  refine ⟨by decide, by decide, by decide, by decide⟩

/-- C5 amended: after every successful fetch, the persisted Expiration
is the isoformat rendering of the API value with its wall-clock fields
kept and the offset forced to UTC: it is a UTC ISO-8601 string (it
parses back to the same UTC-aware datetime), and it denotes the same
instant as the API value exactly when that value already carried a zero
offset (a naive value, read as UTC, also keeps its wall clock). -/
theorem claim_C5_amended (now : Int) (cache : CacheContent) (status : Nat) (body : Record)
    (s : String) (dt : PyDateTime) (apiUrl apiKey : String)
    (hmiss : cacheMiss now cache)
    (hok : ¬(400 ≤ status ∧ status < 600))
    (hs : getField body "Expiration" = some s)
    (hp : parseIso s = some dt) :
    (runFetcher now cache (.response status body) apiUrl apiKey).cacheAfter
      = .record (setField body "Expiration" (isoformatS (utcForce dt)))
    ∧ getField (setField body "Expiration" (isoformatS (utcForce dt))) "Expiration"
      = some (isoformatS (utcForce dt))
    ∧ parseIso (isoformatS (utcForce dt)) = some (utcForce dt)
    ∧ (utcForce dt).tzOffsetMinutes = some 0
    ∧ (dt.tzOffsetMinutes = some 0 → instant (utcForce dt) = instant dt) := by
  refine ⟨?_, getField_setField_same body "Expiration" _,
    parse_print_utc dt (parseIso_valid hp), rfl, ?_⟩
  · rw [runFetcher_fetch_success apiUrl apiKey hmiss hok hs hp]
  · intro h0
    have he : utcForce dt = dt := by
      unfold utcForce
      rw [← h0]
    rw [he]

theorem claim_C5_amended_witness :
    ((runFetcher 0 .absent
      (.response 200 [("AccessKeyId", "C"), ("Expiration", "2031-06-15T08:30:00+00:00")])
      "url3" "k3").cacheAfter
      = .record (setField [("AccessKeyId", "C"), ("Expiration", "2031-06-15T08:30:00+00:00")]
          "Expiration" (isoformatS (utcForce ⟨2031, 6, 15, 8, 30, 0, some 0⟩)))
    ∧ getField (setField [("AccessKeyId", "C"), ("Expiration", "2031-06-15T08:30:00+00:00")]
          "Expiration" (isoformatS (utcForce ⟨2031, 6, 15, 8, 30, 0, some 0⟩))) "Expiration"
      = some (isoformatS (utcForce ⟨2031, 6, 15, 8, 30, 0, some 0⟩))
    ∧ parseIso (isoformatS (utcForce ⟨2031, 6, 15, 8, 30, 0, some 0⟩))
      = some (utcForce ⟨2031, 6, 15, 8, 30, 0, some 0⟩)
    ∧ (utcForce (⟨2031, 6, 15, 8, 30, 0, some 0⟩ : PyDateTime)).tzOffsetMinutes = some 0
    ∧ ((⟨2031, 6, 15, 8, 30, 0, some 0⟩ : PyDateTime).tzOffsetMinutes = some 0 →
        instant (utcForce ⟨2031, 6, 15, 8, 30, 0, some 0⟩)
          = instant ⟨2031, 6, 15, 8, 30, 0, some 0⟩)) :=
  claim_C5_amended 0 .absent 200 [("AccessKeyId", "C"), ("Expiration", "2031-06-15T08:30:00+00:00")]
    "2031-06-15T08:30:00+00:00" ⟨2031, 6, 15, 8, 30, 0, some 0⟩ "url3" "k3"
    (Or.inl rfl) (by decide) (by decide) (by decide)

/-- C9: a record written to the cache by a successful fetch, read back
at any time strictly before its stored Expiration minus five minutes,
is returned with field values identical to those written: the second
invocation issues no request and prints exactly the stored record. -/
theorem claim_C9 (now now2 : Int) (cache : CacheContent) (status : Nat) (body : Record)
    (s : String) (dt : PyDateTime) (apiUrl apiKey apiUrl2 apiKey2 : String) (http2 : HttpResult)
    (hmiss : cacheMiss now cache)
    (hok : ¬(400 ≤ status ∧ status < 600))
    (hs : getField body "Expiration" = some s)
    (hp : parseIso s = some dt)
    (hfresh : now2 < wallSeconds (utcForce dt) - EXPIRATION_THRESHOLD) :
    (runFetcher now cache (.response status body) apiUrl apiKey).cacheAfter
      = .record (setField body "Expiration" (isoformatS (utcForce dt)))
    ∧ runFetcher now2 (.record (setField body "Expiration" (isoformatS (utcForce dt))))
        http2 apiUrl2 apiKey2
      = { requests := []
          cacheAfter := .record (setField body "Expiration" (isoformatS (utcForce dt)))
          stdout := [dumps (setField body "Expiration" (isoformatS (utcForce dt)))]
          outcome := .exited 0 } := by
  constructor
  · rw [runFetcher_fetch_success apiUrl apiKey hmiss hok hs hp]
  · exact runFetcher_cached http2 apiUrl2 apiKey2
      (getField_setField_same body "Expiration" _)
      (parse_print_utc dt (parseIso_valid hp)) hfresh

theorem claim_C9_witness :
    ((runFetcher 0 .absent
      (.response 200 [("AccessKeyId", "D"), ("Expiration", "2030-01-01T00:00:00")])
      "url4" "k4").cacheAfter
      = .record (setField [("AccessKeyId", "D"), ("Expiration", "2030-01-01T00:00:00")]
          "Expiration" (isoformatS (utcForce ⟨2030, 1, 1, 0, 0, 0, none⟩)))
    ∧ runFetcher 7 (.record (setField [("AccessKeyId", "D"), ("Expiration", "2030-01-01T00:00:00")]
          "Expiration" (isoformatS (utcForce ⟨2030, 1, 1, 0, 0, 0, none⟩))))
        .netError "url5" "k5"
      = { requests := []
          cacheAfter := .record (setField [("AccessKeyId", "D"), ("Expiration", "2030-01-01T00:00:00")]
            "Expiration" (isoformatS (utcForce ⟨2030, 1, 1, 0, 0, 0, none⟩)))
          stdout := [dumps (setField [("AccessKeyId", "D"), ("Expiration", "2030-01-01T00:00:00")]
            "Expiration" (isoformatS (utcForce ⟨2030, 1, 1, 0, 0, 0, none⟩)))]
          outcome := .exited 0 }) :=
  claim_C9 0 7 .absent 200 [("AccessKeyId", "D"), ("Expiration", "2030-01-01T00:00:00")]
    "2030-01-01T00:00:00" ⟨2030, 1, 1, 0, 0, 0, none⟩ "url4" "k4" "url5" "k5" .netError
    (Or.inl rfl) (by decide) (by decide) (by decide) (by decide)

/-- C10: if the cache file exists but holds invalid JSON, lacks an
Expiration key, or holds an unparseable Expiration, an invocation of the
generated fetcher raises an uncaught exception and terminates without
printing anything and without issuing any request, instead of falling
back to a fresh fetch. -/
theorem claim_C10 (now : Int) (cache : CacheContent) (http : HttpResult)
    (apiUrl apiKey : String)
    (hbad : cache = .invalidJson
      ∨ ∃ r, cache = .record r ∧ (getField r "Expiration" = none
        ∨ ∃ s, getField r "Expiration" = some s ∧ parseIso s = none)) :
    ∃ e, runFetcher now cache http apiUrl apiKey
      = { requests := []
          cacheAfter := cache
          stdout := []
          outcome := .uncaught e } :=
  runFetcher_badcache http apiUrl apiKey hbad

theorem claim_C10_witness :
    ∃ e, runFetcher 0 (.record [("Expiration", "not-a-date")]) .netError "url6" "k6"
      = { requests := []
          cacheAfter := .record [("Expiration", "not-a-date")]
          stdout := []
          outcome := .uncaught e } :=
  claim_C10 0 (.record [("Expiration", "not-a-date")]) .netError "url6" "k6"
    (Or.inr ⟨[("Expiration", "not-a-date")], rfl, Or.inr ⟨"not-a-date", by decide, by decide⟩⟩)

end CredsProc

namespace CredsInstaller

open CredsProc

theorem truthy_some {s : String} (h : s ≠ "") : truthy (some s) = true := by
  simp [truthy, h]

/-- C6: for every environment in which either required variable is
absent (or empty, which line 16 treats the same way), the installer
prints the banner and the remediation message and exits with code 1
having performed no filesystem operation. -/
theorem claim_C6 (home : String) (apiUrlEnv apiKeyEnv : Option String) (m : Nat)
    (cfg : Config)
    (h : truthy apiUrlEnv = false ∨ truthy apiKeyEnv = false) :
    runInstaller home apiUrlEnv apiKeyEnv m cfg
      = { fileOps := []
          printed := bannerLines ++ envErrorLines
          exitCode := 1
          script := none
          config := cfg } := by
  have hcond : ¬(truthy apiUrlEnv = true ∧ truthy apiKeyEnv = true) := by
    rcases h with h | h
    · intro hc
      rw [h] at hc
      exact Bool.false_ne_true hc.1
    · intro hc
      rw [h] at hc
      exact Bool.false_ne_true hc.2
  unfold runInstaller
  rw [if_neg hcond]

theorem claim_C6_witness :
    runInstaller "/home/user" none (some "key123") 420 []
      = { fileOps := []
          printed := bannerLines ++ envErrorLines
          exitCode := 1
          script := none
          config := [] } :=
  claim_C6 "/home/user" none (some "key123") 420 [] (Or.inl rfl)

/-- C7 as stated is false: the two str.replace calls are sequential, so
a URL value that itself contains the key placeholder text has that text
replaced by the key as well, and the produced content is not the
template with exactly the two values substituted for their placeholders. -/
theorem claim_C7_counterexample :
    scriptContent "API_KEY_PLACEHOLDER" "SECRETKEY"
      ≠ specSubstitutedTemplate "API_KEY_PLACEHOLDER" "SECRETKEY" := by
  intro h
  have he : eqChars (scriptContent "API_KEY_PLACEHOLDER" "SECRETKEY")
      (specSubstitutedTemplate "API_KEY_PLACEHOLDER" "SECRETKEY") = false := by
    decide
  rw [(eqChars_iff _ _).mpr h] at he
  exact absurd he (by simp)

/-- C7 amended: for every pair of non-empty URL and key values such that
the URL value does not create an occurrence of the key placeholder text
before the one in the template, a successful installer run produces a
script whose content is the fixed template with exactly those two values
substituted for the URL and key placeholders, the script file mode has
the owner-execute bit set, and the run exits with code 0. -/
theorem claim_C7_amended (home : String) (u k : String) (m : Nat) (cfg : Config)
    (hu : u ≠ "") (hk : k ≠ "")
    (hsafe : occursBefore keyPh.toList
      ((tplA0.toList ++ u.toList ++ tplMid.toList) ++ keyPh.toList ++ tplSfx.toList)
      (tplA0.toList ++ u.toList ++ tplMid.toList).length = false) :
    (runInstaller home (some u) (some k) m cfg).script
      = some (specSubstitutedTemplate u k, m ||| S_IEXEC)
    ∧ scriptContent u k = specSubstitutedTemplate u k
    ∧ Nat.testBit (m ||| S_IEXEC) 6 = true
    ∧ (runInstaller home (some u) (some k) m cfg).exitCode = 0 := by
  have hc : scriptContent u k = specSubstitutedTemplate u k :=
    scriptContent_eq u k script_template_split urlPh_not_early urlPh_not_in_tail
      hsafe keyPh_not_in_sfx
  have hcond : truthy (some u) = true ∧ truthy (some k) = true :=
    ⟨truthy_some hu, truthy_some hk⟩
  refine ⟨?_, hc, ?_, ?_⟩
  · show (runInstaller home (some u) (some k) m cfg).script
      = some (specSubstitutedTemplate u k, m ||| S_IEXEC)
    unfold runInstaller
    rw [if_pos hcond]
    show some (scriptContent u k, m ||| S_IEXEC)
      = some (specSubstitutedTemplate u k, m ||| S_IEXEC)
    rw [hc]
  · rw [Nat.testBit_or]
    have h64 : Nat.testBit 64 6 = true := by decide
    rw [show S_IEXEC = 64 from rfl, h64, Bool.or_true]
  · unfold runInstaller
    rw [if_pos hcond]

theorem claim_C7_amended_witness :
    ((runInstaller "/home/user" (some "https://api.example.com/creds") (some "key123") 420 []).script
      = some (specSubstitutedTemplate "https://api.example.com/creds" "key123", 420 ||| S_IEXEC)
    ∧ scriptContent "https://api.example.com/creds" "key123"
      = specSubstitutedTemplate "https://api.example.com/creds" "key123"
    ∧ Nat.testBit (420 ||| S_IEXEC) 6 = true
    ∧ (runInstaller "/home/user" (some "https://api.example.com/creds") (some "key123") 420 []).exitCode = 0) :=
  claim_C7_amended "/home/user" "https://api.example.com/creds" "key123" 420 []
    (by decide) (by decide) (by decide)

end CredsInstaller

namespace CredsInstaller

open CredsProc

/-- C8: running the installer twice (same or different API URLs) leaves
exactly one temp-creds-session section in the credentials file, holding
a single credential_process key that points at the script path; the
script file itself is a single file overwritten with the latest values,
not a duplicated section.  The initial configuration is assumed as
configparser delivers it (no duplicate section, no duplicate option). -/
theorem claim_C8 (home : String) (u1 k1 u2 k2 : String) (m : Nat) (cfg : Config)
    (hu1 : u1 ≠ "") (hk1 : k1 ≠ "") (hu2 : u2 ≠ "") (hk2 : k2 ≠ "")
    (hsec : countSections cfg profileName ≤ 1)
    (hkey : ∀ opts, findSection cfg profileName = some opts →
      countKey opts "credential_process" ≤ 1) :
    countSections (runInstaller home (some u2) (some k2) m
        (runInstaller home (some u1) (some k1) m cfg).config).config profileName = 1
    ∧ (∃ opts, findSection (runInstaller home (some u2) (some k2) m
          (runInstaller home (some u1) (some k1) m cfg).config).config profileName = some opts
        ∧ countKey opts "credential_process" = 1
        ∧ getField opts "credential_process" = some (scriptPathOf home))
    ∧ (runInstaller home (some u2) (some k2) m
        (runInstaller home (some u1) (some k1) m cfg).config).script
      = some (scriptContent u2 k2, m ||| S_IEXEC) := by
  have hcond1 : truthy (some u1) = true ∧ truthy (some k1) = true :=
    ⟨truthy_some hu1, truthy_some hk1⟩
  have hcond2 : truthy (some u2) = true ∧ truthy (some k2) = true :=
    ⟨truthy_some hu2, truthy_some hk2⟩
  have hr1 : (runInstaller home (some u1) (some k1) m cfg).config
      = update_aws_credentials_config cfg (scriptPathOf home) := by
    unfold runInstaller
    rw [if_pos hcond1]
  have hsec1 : countSections (update_aws_credentials_config cfg (scriptPathOf home))
      profileName = 1 := update_countSections (scriptPathOf home) hsec
  obtain ⟨o1, ho1, hc1, hg1⟩ := update_findSection (scriptPathOf home) hkey
  have hkey1 : ∀ opts, findSection (update_aws_credentials_config cfg (scriptPathOf home))
      profileName = some opts → countKey opts "credential_process" ≤ 1 := by
    intro opts h
    rw [ho1] at h
    injection h with h
    rw [← h]
    omega
  have hr2 : (runInstaller home (some u2) (some k2) m
      (runInstaller home (some u1) (some k1) m cfg).config).config
      = update_aws_credentials_config
          (update_aws_credentials_config cfg (scriptPathOf home)) (scriptPathOf home) := by
    rw [hr1]
    unfold runInstaller
    rw [if_pos hcond2]
  refine ⟨?_, ?_, ?_⟩
  · rw [hr2]
    exact update_countSections (scriptPathOf home) (by omega)
  · rw [hr2]
    exact update_findSection (scriptPathOf home) hkey1
  · rw [hr1]
    unfold runInstaller
    rw [if_pos hcond2]
    rfl

theorem claim_C8_witness :
    countSections (runInstaller "/home/user" (some "https://two") (some "kB") 420
        (runInstaller "/home/user" (some "https://one") (some "kA") 420 []).config).config
      profileName = 1
    ∧ (∃ opts, findSection (runInstaller "/home/user" (some "https://two") (some "kB") 420
          (runInstaller "/home/user" (some "https://one") (some "kA") 420 []).config).config
          profileName = some opts
        ∧ countKey opts "credential_process" = 1
        ∧ getField opts "credential_process" = some (scriptPathOf "/home/user"))
    ∧ (runInstaller "/home/user" (some "https://two") (some "kB") 420
        (runInstaller "/home/user" (some "https://one") (some "kA") 420 []).config).script
      = some (scriptContent "https://two" "kB", 420 ||| S_IEXEC) :=
  claim_C8 "/home/user" "https://one" "kA" "https://two" "kB" 420 []
    (by decide) (by decide) (by decide) (by decide) (by decide)
    (fun opts h => by simp [findSection] at h)

end CredsInstaller
